import Mathlib

/-!
Verification of the vehicle-service booking MVP (backend).

This file shallowly embeds the parts of the repository that the claims
refer to: the data model (`src/backend/models.py`), the booking CRUD
operations (`src/backend/crud.py`), the slot scheduler
(`src/backend/scheduler.py`) and the scheduling endpoint
(`src/backend/main.py`, `schedule_appointment`).

Modelling conventions:
- the SQLite record store is modelled as lists of records in insertion
  order; `query(...).first()` is `List.find?`, `query(...).count()` is
  `List.countP`; auto-increment primary keys are explicit `next...Id`
  counters starting at 1;
- Python exceptions that the endpoint turns into HTTP 400 responses are
  modelled with `Except`; an error value carries the database state at
  the moment the exception escapes (a failed `commit` rolls the pending
  insert back, so state at a failed insert is the pre-insert state);
- `datetime.strptime(%Y-%m-%d)` is `parseDate`, returning `none` where
  strptime raises `ValueError` and honouring CPython's field widths
  (`%Y` exactly 4 digits, `%m`/`%d` 1 or 2); `dt + timedelta(days=i)`
  is `addDaysBounded` (day-by-day Gregorian successor, `none` where
  the addition past 9999-12-31 raises `OverflowError`); `strftime` is
  `formatDate` (zero-padded);
- Python's stable `sorted(..., key=...)` is the stable insertion sort
  `sortByKey` (a stable sort is uniquely determined by key order plus
  stability, so any stable sort is a faithful model);
- the float expression `(total_booked / total_capacity) * 100` followed
  by `round(x, 2)` is modelled over `ℚ`; on the reachable values
  (`total_booked * 2.5`, an exact multiple of 1/2) the float pipeline is
  exact, so the rational model agrees with CPython here.
-/

/-- models.py `User` row: id, name, phone (unique), email (unique). -/
structure User where
  id : Nat
  name : String
  phone : String
  email : String
deriving Repr, DecidableEq

/-- models.py `Vehicle` row: id, user_id, make, model, year. -/
structure Vehicle where
  id : Nat
  user_id : Nat
  make : String
  model : String
  year : Nat
deriving Repr, DecidableEq

/-- models.py `Booking` row: id, user_id, vehicle_id, service_center_id,
date (`YYYY-MM-DD` text), time (`HH:MM` text), service_type, status. -/
structure Booking where
  id : Nat
  user_id : Nat
  vehicle_id : Nat
  service_center_id : Nat
  date : String
  time : String
  service_type : String
  status : String
deriving Repr, DecidableEq

/-- models.py `ServiceCenter` row (the JSON `available_slots` column is
never read by any code path the claims touch, so it is omitted). -/
structure ServiceCenter where
  id : Nat
  name : String
  address : String
  phone : String
  city : String
deriving Repr, DecidableEq

/-- The record store: one list per table, in insertion (= id) order,
plus the auto-increment counters. -/
structure DB where
  users : List User
  vehicles : List Vehicle
  bookings : List Booking
  centers : List ServiceCenter
  nextUserId : Nat
  nextVehicleId : Nat
  nextBookingId : Nat
deriving Repr, DecidableEq

/-- Exceptions surfaced by the endpoints as HTTP 400 client errors:
`valueError` is `datetime.strptime` on a malformed date,
`overflowError` is `datetime + timedelta` leaving the supported
calendar range (beyond `datetime.MAXYEAR` = 9999), and
`integrityError` is a violated unique constraint on insert. -/
inductive SchedErr where
  | valueError
  | overflowError
  | integrityError
deriving Repr, DecidableEq

deriving instance DecidableEq for Except

/-- scheduler.py `AVAILABLE_SLOTS`. -/
def AVAILABLE_SLOTS : List String :=
  ["09:00", "10:00", "11:00", "12:00", "14:00", "15:00", "16:00", "17:00"]

/-- scheduler.py `SLOTS_PER_TIMEFRAME`. -/
def SLOTS_PER_TIMEFRAME : Nat := 5

/-- The booking-count query shared by `check_slot_availability` and
`get_slot_occupancy`: bookings matching (date, time, center) with
status different from "Cancelled". -/
def countActive (db : DB) (date time : String) (service_center_id : Nat) : Nat :=
  db.bookings.countP fun b =>
    b.date == date && b.time == time &&
    b.service_center_id == service_center_id && b.status != "Cancelled"

/-- scheduler.py `check_slot_availability`. -/
def check_slot_availability (db : DB) (date time : String)
    (service_center_id : Nat) : Bool :=
  countActive db date time service_center_id < SLOTS_PER_TIMEFRAME

/-- scheduler.py `get_slot_occupancy`: the dict {slot: count} built in
`AVAILABLE_SLOTS` insertion order. -/
def get_slot_occupancy (db : DB) (date : String) (service_center_id : Nat) :
    List (String × Nat) :=
  AVAILABLE_SLOTS.map fun slot => (slot, countActive db date slot service_center_id)

/-- Python `dict.get(key, 0)` on an insertion-ordered dict. -/
def dictGet : List (String × Nat) → String → Nat
  | [], _ => 0
  | (k, v) :: rest, s => if k = s then v else dictGet rest s

/-! ### Calendar arithmetic (`datetime.strptime/timedelta/strftime`) -/

/-- Gregorian calendar date, `1 ≤ month ≤ 12`, `1 ≤ day ≤ daysInMonth`. -/
structure Date where
  year : Nat
  month : Nat
  day : Nat
deriving Repr, DecidableEq

/-- Gregorian leap-year rule. -/
def isLeap (y : Nat) : Bool :=
  y % 4 == 0 && (y % 100 != 0 || y % 400 == 0)

/-- Number of days in the given month of the given year. -/
def daysInMonth (y m : Nat) : Nat :=
  if m == 2 then (if isLeap y then 29 else 28)
  else if m == 4 || m == 6 || m == 9 || m == 11 then 30
  else 31

/-- Split a character list at every occurrence of the separator
(structural-recursion version of `String.splitOn` for one-character
separators). -/
def splitOnChar (sep : Char) : List Char → List (List Char)
  | [] => [[]]
  | c :: cs =>
    match splitOnChar sep cs with
    | [] => [[]]
    | h :: t => if c = sep then [] :: h :: t else (c :: h) :: t

/-- Parse a non-empty all-digit character run as a numeral. -/
def digitRunAux : List Char → Nat → Option Nat
  | [], acc => some acc
  | c :: cs, acc =>
    if '0' ≤ c ∧ c ≤ '9' then digitRunAux cs (acc * 10 + (c.toNat - '0'.toNat))
    else none

/-- Parse a non-empty all-digit character run as a numeral. -/
def digitRun? : List Char → Option Nat
  | [] => none
  | c :: cs => digitRunAux (c :: cs) 0

/-- `datetime.strptime(s, "%Y-%m-%d")`: returns `none` exactly where
strptime raises `ValueError`. CPython's `%Y` matches exactly 4 digits
and `%m`/`%d` match 1 or 2 digits (so "5-01-01", "02025-06-10",
"2025-006-10", "2025-06-010" are all rejected, while "2025-6-1" is
accepted); the matched values must form a proper Gregorian date, with
year ≥ 1 (`datetime.MINYEAR`) — a 4-digit year is at most 9999
(`datetime.MAXYEAR`) already. -/
def parseDate (s : String) : Option Date :=
  match splitOnChar '-' s.data with
  | [ys, ms, ds] =>
    match digitRun? ys, digitRun? ms, digitRun? ds with
    | some y, some m, some d =>
      if ys.length = 4 ∧ ms.length ≤ 2 ∧ ds.length ≤ 2 ∧
          1 ≤ y ∧ 1 ≤ m ∧ m ≤ 12 ∧ 1 ≤ d ∧ d ≤ daysInMonth y m then
        some ⟨y, m, d⟩
      else none
    | _, _, _ => none
  | _ => none

/-- The calendar successor of a date. -/
def nextDay (dt : Date) : Date :=
  if dt.day < daysInMonth dt.year dt.month then ⟨dt.year, dt.month, dt.day + 1⟩
  else if dt.month < 12 then ⟨dt.year, dt.month + 1, 1⟩
  else ⟨dt.year + 1, 1, 1⟩

/-- The raw day-by-day Gregorian successor sum (no range bound). -/
def addDays (dt : Date) : Nat → Date
  | 0 => dt
  | n + 1 => nextDay (addDays dt n)

/-- `dt + timedelta(days = n)` as the program runs it: returns `none`
exactly where CPython raises `OverflowError`, i.e. when the result
passes `datetime.MAXYEAR` = 9999 (the successor of 9999-12-31 has year
10000, and the year never decreases). -/
def addDaysBounded (dt : Date) (n : Nat) : Option Date :=
  let r := addDays dt n
  if r.year ≤ 9999 then some r else none

/-- Zero-pad a numeral to the given width (strftime padding). -/
def padNum (width n : Nat) : String :=
  let s := toString n
  String.mk (List.replicate (width - s.length) '0') ++ s

/-- `strftime("%Y-%m-%d")`. -/
def formatDate (dt : Date) : String :=
  padNum 4 dt.year ++ "-" ++ padNum 2 dt.month ++ "-" ++ padNum 2 dt.day

/-! ### The slot-assignment engine (`find_preferred_slot`) -/

/-- Stable insert for `sortByKey`: the new element (earlier in the
original order) goes before every element with an equal key. -/
def insertByKey (key : String → Nat) (x : String) : List String → List String
  | [] => [x]
  | y :: ys => if key x ≤ key y then x :: y :: ys else y :: insertByKey key x ys

/-- Python's stable `sorted(l, key := key)` (ascending, equal keys keep
their original relative order). -/
def sortByKey (key : String → Nat) : List String → List String
  | [] => []
  | x :: xs => insertByKey key x (sortByKey key xs)

/-- scheduler.py `find_preferred_slot` step 4: for each day offset in
the list, recompute `strptime(preferred_date) + timedelta(days=i)`
(which can overflow past 9999-12-31) and scan the slots in canonical
order, returning the first available one. -/
def searchDays (db : DB) (dt : Date) (service_center_id : Nat) :
    List Nat → Except SchedErr (Option (String × String))
  | [] => Except.ok none
  | i :: rest =>
    match addDaysBounded dt i with
    | none => Except.error SchedErr.overflowError
    | some sd =>
      let search_date := formatDate sd
      match AVAILABLE_SLOTS.find? (fun slot =>
          check_slot_availability db search_date slot service_center_id) with
      | some slot => Except.ok (some (search_date, slot))
      | none => searchDays db dt service_center_id rest

/-- scheduler.py `find_preferred_slot`. Step 1: exact preferred slot.
Step 2: same day, all 8 slots stably sorted by occupancy, first
available. Step 3: next day in canonical slot order. Step 4: day
offsets 2..6. Fallback: `(next_date, AVAILABLE_SLOTS[0])`
unconditionally. The date is parsed (strptime) only when step 2 has
failed, exactly as in the source: a malformed date there raises
`ValueError`, and `+ timedelta(days=1)` past 9999-12-31 raises
`OverflowError`, both before the step-3 scan. -/
def find_preferred_slot (db : DB) (preferred_date preferred_time : String)
    (service_center_id : Nat) : Except SchedErr (String × String) :=
  if preferred_time ∈ AVAILABLE_SLOTS ∧
      check_slot_availability db preferred_date preferred_time service_center_id = true then
    Except.ok (preferred_date, preferred_time)
  else
    let occupancy := get_slot_occupancy db preferred_date service_center_id
    let available_slots_today := sortByKey (fun x => dictGet occupancy x) AVAILABLE_SLOTS
    match available_slots_today.find? (fun slot =>
        check_slot_availability db preferred_date slot service_center_id) with
    | some slot => Except.ok (preferred_date, slot)
    | none =>
      match parseDate preferred_date with
      | none => Except.error SchedErr.valueError
      | some dt =>
        match addDaysBounded dt 1 with
        | none => Except.error SchedErr.overflowError
        | some nd =>
          let next_date := formatDate nd
          match AVAILABLE_SLOTS.find? (fun slot =>
              check_slot_availability db next_date slot service_center_id) with
          | some slot => Except.ok (next_date, slot)
          | none =>
            match searchDays db dt service_center_id [2, 3, 4, 5, 6] with
            | Except.error e => Except.error e
            | Except.ok (some found) => Except.ok found
            | Except.ok none => Except.ok (next_date, AVAILABLE_SLOTS.headD "")

/-- scheduler.py `find_best_service_center`: first center in insertion
order, or the constant 1 when there is none. -/
def find_best_service_center (db : DB) : Nat :=
  match db.centers.head? with
  | some center => center.id
  | none => 1

/-! ### Day optimizer and wait-time estimator -/

/-- Python `max(occupancy, key := occupancy.get)`: the first key (in dict
insertion order) carrying a maximal value; "N/A" on an empty dict. -/
def maxKeyFirst : List (String × Nat) → String
  | [] => "N/A"
  | (k, v) :: rest => maxKeyGo rest k v
where
  maxKeyGo : List (String × Nat) → String → Nat → String
    | [], bk, _ => bk
    | (k, v) :: rest, bk, bv => if v > bv then maxKeyGo rest k v else maxKeyGo rest bk bv

/-- Python `min(occupancy, key := occupancy.get)`: the first key carrying
a minimal value. -/
def minKeyFirst : List (String × Nat) → String
  | [] => "N/A"
  | (k, v) :: rest => minKeyGo rest k v
where
  minKeyGo : List (String × Nat) → String → Nat → String
    | [], bk, _ => bk
    | (k, v) :: rest, bk, bv => if v < bv then minKeyGo rest k v else minKeyGo rest bk bv

/-- Python `round(q, 2)` on the values reached here. `q * 100` is always
an integer in every use in this program, so half-even versus half-up
rounding makes no difference and the float pipeline is exact. -/
def round2 (q : ℚ) : ℚ := (round (q * 100) : ℤ) / 100

/-- scheduler.py `optimize_slots_for_day` result dict. -/
structure DayStats where
  date : String
  total_capacity : Nat
  total_booked : Nat
  total_available : Int
  occupancy_percentage : ℚ
  peak_slot : String
  off_peak_slot : String
  occupancy_by_slot : List (String × Nat)
deriving Repr, DecidableEq

/-- scheduler.py `optimize_slots_for_day`. -/
def optimize_slots_for_day (db : DB) (date : String) (service_center_id : Nat) :
    DayStats :=
  let occupancy := get_slot_occupancy db date service_center_id
  let total_capacity := AVAILABLE_SLOTS.length * SLOTS_PER_TIMEFRAME
  let total_booked := (occupancy.map Prod.snd).sum
  let occupancy_percentage : ℚ :=
    if total_capacity > 0 then ((total_booked : ℚ) / total_capacity) * 100 else 0
  { date := date
    total_capacity := total_capacity
    total_booked := total_booked
    total_available := (total_capacity : Int) - (total_booked : Int)
    occupancy_percentage := round2 occupancy_percentage
    peak_slot := maxKeyFirst occupancy
    off_peak_slot := minKeyFirst occupancy
    occupancy_by_slot := occupancy }

/-- scheduler.py `predict_wait_time`. -/
def predict_wait_time (occupancy : List (String × Nat)) (selected_slot : String) :
    String :=
  let booked_count := dictGet occupancy selected_slot
  let estimated_minutes := booked_count * 30
  if estimated_minutes == 0 then
    "No wait - You'll be first!"
  else if estimated_minutes ≤ 30 then
    "~" ++ toString estimated_minutes ++ " min wait"
  else if estimated_minutes ≤ 60 then
    "~" ++ toString estimated_minutes ++ " min wait (about 1 hour)"
  else
    let hours := estimated_minutes / 60
    let minutes := estimated_minutes % 60
    "~" ++ toString hours ++ "h " ++ toString minutes ++ "m wait"

/-! ### CRUD operations (crud.py) and the scheduling endpoint (main.py) -/

/-- crud.py `BookingCreate` request schema. -/
structure BookingCreate where
  user_name : String
  phone : String
  email : String
  vehicle_make : String
  vehicle_model : String
  vehicle_year : Nat
  preferred_date : String
  preferred_time : String
  service_type : String
deriving Repr, DecidableEq

/-- crud.py `create_or_get_user`: look the user up by phone; otherwise
insert one. The insert's `commit` raises `IntegrityError` when the
email is already taken (unique column); the failed transaction is
rolled back, so the error carries the unchanged database. -/
def create_or_get_user (db : DB) (name phone email : String) :
    Except (SchedErr × DB) (User × DB) :=
  match db.users.find? (fun u => u.phone == phone) with
  | some u => Except.ok (u, db)
  | none =>
    if db.users.any (fun u => u.email == email) then
      Except.error (SchedErr.integrityError, db)
    else
      let u : User := ⟨db.nextUserId, name, phone, email⟩
      Except.ok (u, { db with users := db.users ++ [u], nextUserId := db.nextUserId + 1 })

/-- crud.py `create_or_get_vehicle`: look the vehicle up by
(user, make, model); otherwise insert one (no failure mode: the only
unique column, `registration`, is never set). -/
def create_or_get_vehicle (db : DB) (user_id : Nat) (make model : String)
    (year : Nat) : Vehicle × DB :=
  match db.vehicles.find? (fun v =>
      v.user_id == user_id && v.make == make && v.model == model) with
  | some v => (v, db)
  | none =>
    let v : Vehicle := ⟨db.nextVehicleId, user_id, make, model, year⟩
    (v, { db with vehicles := db.vehicles ++ [v], nextVehicleId := db.nextVehicleId + 1 })

/-- crud.py `create_booking` (the `POST /bookings` endpoint body):
upserts user and vehicle, then inserts a booking at the *preferred*
date and time with status "Confirmed" and `service_center_id = 1`,
with no availability check of any kind. -/
def create_booking (db : DB) (booking : BookingCreate) :
    Except (SchedErr × DB) (Booking × DB) :=
  match create_or_get_user db booking.user_name booking.phone booking.email with
  | Except.error e => Except.error e
  | Except.ok (user, db1) =>
    let vdb := create_or_get_vehicle db1 user.id booking.vehicle_make
      booking.vehicle_model booking.vehicle_year
    let vehicle := vdb.1
    let db2 := vdb.2
    let b : Booking :=
      ⟨db2.nextBookingId, user.id, vehicle.id, 1, booking.preferred_date,
        booking.preferred_time, booking.service_type, "Confirmed"⟩
    Except.ok (b, { db2 with bookings := db2.bookings ++ [b],
                             nextBookingId := db2.nextBookingId + 1 })

/-- crud.py `cancel_booking` on the bookings table: set the status of
the first booking with the given id to "Cancelled" (no-op when the id
is unknown). -/
def cancelFirst : List Booking → Nat → List Booking
  | [], _ => []
  | b :: rest, booking_id =>
    if b.id == booking_id then { b with status := "Cancelled" } :: rest
    else b :: cancelFirst rest booking_id

/-- crud.py `cancel_booking`. -/
def cancel_booking (db : DB) (booking_id : Nat) : DB :=
  { db with bookings := cancelFirst db.bookings booking_id }

/-- The fields of the `POST /schedule-appointment` response that the
claims are about. -/
structure ScheduleResponse where
  booking_id : Nat
  assigned_date : String
  assigned_time : String
  slot_changed : Bool
  estimated_wait : String
  service_center_id : Nat
deriving Repr, DecidableEq

/-- main.py `schedule_appointment`: pick the center, run the slot
engine, compute the wait estimate, upsert user and vehicle, insert the
booking with status "Confirmed" at the assigned slot. An escaping
exception becomes an HTTP 400; the error value carries the database
state at that moment. -/
def schedule_appointment (db : DB) (booking : BookingCreate) :
    Except (SchedErr × DB) (ScheduleResponse × DB) :=
  let service_center_id := find_best_service_center db
  match find_preferred_slot db booking.preferred_date booking.preferred_time
      service_center_id with
  | Except.error e => Except.error (e, db)
  | Except.ok (assigned_date, assigned_time) =>
    let occupancy := get_slot_occupancy db assigned_date service_center_id
    let wait_time := predict_wait_time occupancy assigned_time
    match create_or_get_user db booking.user_name booking.phone booking.email with
    | Except.error e => Except.error e
    | Except.ok (user, db1) =>
      let vdb := create_or_get_vehicle db1 user.id booking.vehicle_make
        booking.vehicle_model booking.vehicle_year
      let vehicle := vdb.1
      let db2 := vdb.2
      let b : Booking :=
        ⟨db2.nextBookingId, user.id, vehicle.id, service_center_id,
          assigned_date, assigned_time, booking.service_type, "Confirmed"⟩
      let db3 := { db2 with bookings := db2.bookings ++ [b],
                            nextBookingId := db2.nextBookingId + 1 }
      Except.ok
        ({ booking_id := b.id
           assigned_date := assigned_date
           assigned_time := assigned_time
           slot_changed := assigned_date != booking.preferred_date ||
             assigned_time != booking.preferred_time
           estimated_wait := wait_time
           service_center_id := service_center_id }, db3)

/-! ### Reachable database states -/

/-- The database after process start: `initialize_service_centers` has
seeded exactly the 3 centers (crud.py) into an otherwise empty store. -/
def initialDB : DB :=
  { users := []
    vehicles := []
    bookings := []
    centers :=
      [⟨1, "EY Auto Service Center - Mumbai", "Andheri East, Mumbai",
         "+91-22-1234-5678", "Mumbai"⟩,
       ⟨2, "EY Auto Service Center - Pune", "Koregaon Park, Pune",
         "+91-20-1234-5678", "Pune"⟩,
       ⟨3, "EY Auto Service Center - Bangalore", "Whitefield, Bangalore",
         "+91-80-1234-5678", "Bangalore"⟩]
    nextUserId := 1
    nextVehicleId := 1
    nextBookingId := 1 }

/-- State transition of the `POST /bookings` endpoint (on a 400 the
session's pending work is rolled back, leaving the carried state). -/
def runCreate (db : DB) (booking : BookingCreate) : DB :=
  match create_booking db booking with
  | Except.ok (_, db') => db'
  | Except.error (_, db') => db'

/-- State transition of the `POST /schedule-appointment` endpoint. -/
def runSchedule (db : DB) (booking : BookingCreate) : DB :=
  match schedule_appointment db booking with
  | Except.ok (_, db') => db'
  | Except.error (_, db') => db'

/-- One booking-related API operation, as a step on database states. -/
inductive Step : DB → DB → Prop where
  | createB (booking : BookingCreate) (db : DB) : Step db (runCreate db booking)
  | schedule (booking : BookingCreate) (db : DB) : Step db (runSchedule db booking)
  | cancelB (booking_id : Nat) (db : DB) : Step db (cancel_booking db booking_id)

/-- A database state reachable from process start through the booking
operations. -/
def reachable (db : DB) : Prop :=
  Relation.ReflTransGen Step initialDB db

/-- The §3 capacity invariant: at most `SLOTS_PER_TIMEFRAME` (= 5)
non-Cancelled bookings share any one (date, time, service_center)
triple. -/
def capacityInvariant (db : DB) : Prop :=
  ∀ date time service_center_id,
    countActive db date time service_center_id ≤ SLOTS_PER_TIMEFRAME

/-! ### Helper lemmas -/

/-- Looking a slot up in the occupancy dict built by `get_slot_occupancy`
yields the live booking count (slots not in the dict default to 0). -/
theorem dictGet_map_eq (f : String → Nat) (l : List String) (x : String) :
    dictGet (l.map fun s => (s, f s)) x = if x ∈ l then f x else 0 := by
  induction l with
  | nil => simp [dictGet]
  | cons y ys ih =>
    simp only [List.map_cons, dictGet]
    by_cases hyx : y = x
    · subst hyx
      simp
    · have hxy : ¬x = y := fun hh => hyx hh.symm
      simp [hyx, ih, List.mem_cons, hxy]

/-- Membership is preserved by the stable insert. -/
theorem mem_insertByKey (key : String → Nat) (x : String) (l : List String)
    (y : String) : y ∈ insertByKey key x l ↔ y = x ∨ y ∈ l := by
  induction l with
  | nil => simp [insertByKey]
  | cons z zs ih =>
    by_cases h : key x ≤ key z
    · simp [insertByKey, h, List.mem_cons]
    · simp only [insertByKey, if_neg h, List.mem_cons, ih]
      tauto

/-- Membership is preserved by the stable sort. -/
theorem mem_sortByKey (key : String → Nat) (l : List String) (y : String) :
    y ∈ sortByKey key l ↔ y ∈ l := by
  induction l with
  | nil => simp [sortByKey]
  | cons z zs ih => simp [sortByKey, mem_insertByKey, ih]

/-- The earliest element of the list whose key is minimal (ties keep the
earlier element). -/
def firstMin (key : String → Nat) : List String → Option String
  | [] => none
  | x :: xs =>
    match firstMin key xs with
    | none => some x
    | some y => if key x ≤ key y then some x else some y

/-- The stable insert never returns the empty list. -/
theorem insertByKey_ne_nil (key : String → Nat) (x : String) (l : List String) :
    insertByKey key x l ≠ [] := by
  cases l with
  | nil => simp [insertByKey]
  | cons z zs =>
    by_cases h : key x ≤ key z <;> simp [insertByKey, h]

/-- The head of the stably sorted list is the earliest minimal element. -/
theorem sortByKey_head? (key : String → Nat) (l : List String) :
    (sortByKey key l).head? = firstMin key l := by
  induction l with
  | nil => simp [sortByKey, firstMin]
  | cons x xs ih =>
    simp only [sortByKey, firstMin]
    cases hs : sortByKey key xs with
    | nil =>
      rw [hs] at ih
      simp only [List.head?] at ih
      rw [← ih]
      simp [insertByKey]
    | cons z zs =>
      rw [hs] at ih
      simp only [List.head?] at ih
      rw [← ih]
      by_cases h : key x ≤ key z <;> simp [insertByKey, h]

/-- The earliest minimal element belongs to the list. -/
theorem firstMin_mem (key : String → Nat) (l : List String) (m : String)
    (h : firstMin key l = some m) : m ∈ l := by
  induction l with
  | nil => simp [firstMin] at h
  | cons x xs ih =>
    cases hx : firstMin key xs with
    | none =>
      have hrw : firstMin key (x :: xs) = some x := by simp [firstMin, hx]
      rw [hrw] at h
      simp only [Option.some.injEq] at h
      subst h
      exact List.mem_cons_self x xs
    | some y =>
      by_cases hk : key x ≤ key y
      · have hrw : firstMin key (x :: xs) = some x := by simp [firstMin, hx, hk]
        rw [hrw] at h
        simp only [Option.some.injEq] at h
        subst h
        exact List.mem_cons_self x xs
      · have hrw : firstMin key (x :: xs) = some y := by simp [firstMin, hx, hk]
        rw [hrw] at h
        simp only [Option.some.injEq] at h
        subst h
        exact List.mem_cons_of_mem x (ih hx)

/-- `firstMin` finds nothing only on the empty list. -/
theorem firstMin_eq_none (key : String → Nat) (l : List String) :
    firstMin key l = none ↔ l = [] := by
  cases l with
  | nil => simp [firstMin]
  | cons x xs =>
    simp only [firstMin]
    cases hx : firstMin key xs with
    | none => simp
    | some z => by_cases hk : key x ≤ key z <;> simp [hk]

/-- The earliest minimal element has a minimal key. -/
theorem firstMin_min (key : String → Nat) : ∀ (l : List String) (m : String),
    firstMin key l = some m → ∀ y ∈ l, key m ≤ key y := by
  intro l
  induction l with
  | nil => intro m h; simp [firstMin] at h
  | cons x xs ih =>
    intro m h u hu
    cases hx : firstMin key xs with
    | none =>
      have hxs : xs = [] := (firstMin_eq_none key xs).mp hx
      subst hxs
      have hrw : firstMin key [x] = some x := by simp [firstMin]
      rw [hrw] at h
      simp only [Option.some.injEq] at h
      subst h
      rcases List.mem_cons.mp hu with h1 | h1
      · subst h1; exact Nat.le_refl _
      · cases h1
    | some z =>
      have hz : ∀ v ∈ xs, key z ≤ key v := ih z hx
      by_cases hk : key x ≤ key z
      · have hrw : firstMin key (x :: xs) = some x := by simp [firstMin, hx, hk]
        rw [hrw] at h
        simp only [Option.some.injEq] at h
        subst h
        rcases List.mem_cons.mp hu with h1 | h1
        · subst h1; exact Nat.le_refl _
        · exact Nat.le_trans hk (hz u h1)
      · have hrw : firstMin key (x :: xs) = some z := by simp [firstMin, hx, hk]
        rw [hrw] at h
        simp only [Option.some.injEq] at h
        subst h
        rcases List.mem_cons.mp hu with h1 | h1
        · subst h1; exact Nat.le_of_not_le hk
        · exact hz u h1

/-- Among elements of an equal, minimal key, `firstMin` picks the one
occurring first in the list. -/
theorem firstMin_first (key : String → Nat) : ∀ (l : List String) (m : String),
    firstMin key l = some m → ∀ y ∈ l, key y = key m →
    l.indexOf m ≤ l.indexOf y := by
  intro l
  induction l with
  | nil => intro m h; simp [firstMin] at h
  | cons x xs ih =>
    intro m h u hu hkey
    cases hx : firstMin key xs with
    | none =>
      have hxs : xs = [] := (firstMin_eq_none key xs).mp hx
      subst hxs
      have hrw : firstMin key [x] = some x := by simp [firstMin]
      rw [hrw] at h
      simp only [Option.some.injEq] at h
      subst h
      rcases List.mem_cons.mp hu with h1 | h1
      · subst h1; exact Nat.le_refl _
      · cases h1
    | some z =>
      by_cases hk : key x ≤ key z
      · have hrw : firstMin key (x :: xs) = some x := by simp [firstMin, hx, hk]
        rw [hrw] at h
        simp only [Option.some.injEq] at h
        subst h
        simp [List.indexOf_cons_self]
      · have hrw : firstMin key (x :: xs) = some z := by simp [firstMin, hx, hk]
        rw [hrw] at h
        simp only [Option.some.injEq] at h
        subst h
        have hlt : key z < key x := Nat.lt_of_not_le hk
        have hmx : z ≠ x := by
          intro he
          rw [he] at hlt
          exact Nat.lt_irrefl _ hlt
        have hux : u ≠ x := by
          intro he
          rw [he] at hkey
          omega
        rw [List.indexOf_cons_ne _ (fun hh => hmx hh.symm),
            List.indexOf_cons_ne _ (fun hh => hux hh.symm)]
        have h1 : u ∈ xs := by
          rcases List.mem_cons.mp hu with h2 | h2
          · exact absurd h2 hux
          · exact h2
        exact Nat.succ_le_succ (ih z hx u h1 hkey)

/-- `check_slot_availability` is exactly "strictly below capacity". -/
theorem check_slot_availability_iff (db : DB) (date time : String) (c : Nat) :
    check_slot_availability db date time c = true ↔ countActive db date time c < 5 := by
  simp [check_slot_availability, SLOTS_PER_TIMEFRAME]

/-! ### C4: exact-match tier -/

/-- C4: for every preferred_date d, preferred_time t and center c, if t
is one of the 8 valid slot labels and the (d, t, c) slot holds fewer
than 5 non-cancelled bookings, then `find_preferred_slot` returns
exactly (d, t) unchanged. -/
theorem claim_C4_exact_match (db : DB) (d t : String) (c : Nat)
    (ht : t ∈ AVAILABLE_SLOTS) (hc : countActive db d t c < 5) :
    find_preferred_slot db d t c = Except.ok (d, t) := by
  have hcheck : check_slot_availability db d t c = true :=
    (check_slot_availability_iff db d t c).mpr hc
  simp only [find_preferred_slot]
  rw [if_pos ⟨ht, hcheck⟩]

/-- Witness for C4: a concrete fresh database, preferred slot
(2025-06-10, 10:00) is granted unchanged. -/
theorem claim_C4_exact_match_witness :
    find_preferred_slot initialDB "2025-06-10" "10:00" 1 =
      Except.ok ("2025-06-10", "10:00") :=
  claim_C4_exact_match initialDB "2025-06-10" "10:00" 1 (by decide) (by decide)

/-! ### C9: wait-time bands -/

/-- C9: for every occupancy mapping and slot label, `predict_wait_time`
computes minutes = occupancy.get(slot, 0) × 30 and returns the no-wait
message when minutes = 0; a "~N min" message when 0 < minutes ≤ 30; a
"~N min (about 1 hour)" message when 30 < minutes ≤ 60; and a "~Hh Mm"
message with H = minutes div 60 and M = minutes mod 60 when
minutes > 60. -/
theorem claim_C9_wait_time_bands (occ : List (String × Nat)) (slot : String) :
    (dictGet occ slot * 30 = 0 →
      predict_wait_time occ slot = "No wait - You'll be first!") ∧
    (0 < dictGet occ slot * 30 → dictGet occ slot * 30 ≤ 30 →
      predict_wait_time occ slot =
        "~" ++ toString (dictGet occ slot * 30) ++ " min wait") ∧
    (30 < dictGet occ slot * 30 → dictGet occ slot * 30 ≤ 60 →
      predict_wait_time occ slot =
        "~" ++ toString (dictGet occ slot * 30) ++ " min wait (about 1 hour)") ∧
    (60 < dictGet occ slot * 30 →
      predict_wait_time occ slot =
        "~" ++ toString (dictGet occ slot * 30 / 60) ++ "h " ++
          toString (dictGet occ slot * 30 % 60) ++ "m wait") := by
  simp only [predict_wait_time]
  refine ⟨fun h0 => ?_, fun hpos hle => ?_, fun hgt hle => ?_, fun hgt => ?_⟩
  · rw [if_pos (by simpa using h0)]
  · rw [if_neg (by simp; omega), if_pos hle]
  · rw [if_neg (by simp; omega), if_neg (by omega), if_pos hle]
  · rw [if_neg (by simp; omega), if_neg (by omega), if_neg (by omega)]

/-- Witness for C9, covering the three documented scenarios: occupancy
count 0 gives no wait, count 1 gives ~30 min, count 3 gives 1h 30m. -/
theorem claim_C9_wait_time_bands_witness :
    predict_wait_time [("10:00", 0)] "10:00" = "No wait - You'll be first!" ∧
    predict_wait_time [("10:00", 1)] "10:00" = "~" ++ toString 30 ++ " min wait" ∧
    predict_wait_time [("10:00", 3)] "10:00" =
      "~" ++ toString (90 / 60) ++ "h " ++ toString (90 % 60) ++ "m wait" :=
  ⟨(claim_C9_wait_time_bands [("10:00", 0)] "10:00").1 (by decide),
   (claim_C9_wait_time_bands [("10:00", 1)] "10:00").2.1 (by decide) (by decide),
   (claim_C9_wait_time_bands [("10:00", 3)] "10:00").2.2.2 (by decide)⟩

/-! ### Structure of the orchestration (`schedule_appointment`) -/

/-- A successful `create_or_get_user` leaves every other table alone and
yields a user with the requested phone, present in the store. -/
theorem create_or_get_user_ok_spec (db : DB) (n p e : String) (user : User)
    (db1 : DB) (h : create_or_get_user db n p e = Except.ok (user, db1)) :
    db1.bookings = db.bookings ∧ db1.vehicles = db.vehicles ∧
    user ∈ db1.users ∧ user.phone = p := by
  unfold create_or_get_user at h
  cases hf : db.users.find? (fun u => u.phone == p) with
  | some u =>
    rw [hf] at h
    simp only [Except.ok.injEq, Prod.mk.injEq] at h
    obtain ⟨hu, hdb⟩ := h
    subst hu
    subst hdb
    refine ⟨rfl, rfl, List.mem_of_find?_eq_some hf, ?_⟩
    have := List.find?_some hf
    simpa using this
  | none =>
    rw [hf] at h
    by_cases hany : db.users.any (fun u => u.email == e)
    · rw [if_pos hany] at h
      cases h
    · rw [if_neg hany] at h
      simp only [Except.ok.injEq, Prod.mk.injEq] at h
      obtain ⟨hu, hdb⟩ := h
      subst hu
      subst hdb
      exact ⟨rfl, rfl, by simp, rfl⟩

/-- A failed `create_or_get_user` (duplicate email) rolls back: the
carried state is the input state. -/
theorem create_or_get_user_error_spec (db : DB) (n p e : String)
    (err : SchedErr) (dbe : DB)
    (h : create_or_get_user db n p e = Except.error (err, dbe)) : dbe = db := by
  unfold create_or_get_user at h
  cases hf : db.users.find? (fun u => u.phone == p) with
  | some u => rw [hf] at h; cases h
  | none =>
    rw [hf] at h
    by_cases hany : db.users.any (fun u => u.email == e)
    · rw [if_pos hany] at h
      simp only [Except.error.injEq, Prod.mk.injEq] at h
      exact h.2.symm
    · rw [if_neg hany] at h
      cases h

/-- `create_or_get_vehicle` never fails, leaves users and bookings
alone, and yields a vehicle with the requested owner, make and model,
present in the store. -/
theorem create_or_get_vehicle_spec (db : DB) (uid : Nat) (mk md : String)
    (yr : Nat) :
    (create_or_get_vehicle db uid mk md yr).2.bookings = db.bookings ∧
    (create_or_get_vehicle db uid mk md yr).2.users = db.users ∧
    (create_or_get_vehicle db uid mk md yr).1 ∈
      (create_or_get_vehicle db uid mk md yr).2.vehicles ∧
    (create_or_get_vehicle db uid mk md yr).1.user_id = uid ∧
    (create_or_get_vehicle db uid mk md yr).1.make = mk ∧
    (create_or_get_vehicle db uid mk md yr).1.model = md := by
  unfold create_or_get_vehicle
  cases hf : db.vehicles.find? (fun v => v.user_id == uid && v.make == mk && v.model == md) with
  | some v =>
    have hm := List.mem_of_find?_eq_some hf
    have hp := List.find?_some hf
    simp only [Bool.and_eq_true, beq_iff_eq] at hp
    exact ⟨rfl, rfl, hm, hp.1.1, hp.1.2, hp.2⟩
  | none =>
    refine ⟨rfl, rfl, by simp, rfl, rfl, rfl⟩

/-- Shape of a successful `schedule_appointment`: the store gains
exactly one booking, Confirmed, at the assigned slot and the selected
center, owned by a user with the requested phone and a vehicle with the
requested make/model; the assignment came from `find_preferred_slot`. -/
theorem schedule_ok_spec (db : DB) (req : BookingCreate) (r : ScheduleResponse)
    (db' : DB) (h : schedule_appointment db req = Except.ok (r, db')) :
    ∃ u v b,
      u ∈ db'.users ∧ v ∈ db'.vehicles ∧
      db'.bookings = db.bookings ++ [b] ∧
      u.phone = req.phone ∧
      v.user_id = u.id ∧ v.make = req.vehicle_make ∧ v.model = req.vehicle_model ∧
      b.user_id = u.id ∧ b.vehicle_id = v.id ∧
      b.date = r.assigned_date ∧ b.time = r.assigned_time ∧
      b.service_center_id = find_best_service_center db ∧
      b.status = "Confirmed" ∧
      r.service_center_id = find_best_service_center db ∧
      find_preferred_slot db req.preferred_date req.preferred_time
        (find_best_service_center db) =
        Except.ok (r.assigned_date, r.assigned_time) := by
  simp only [schedule_appointment] at h
  cases hfps : find_preferred_slot db req.preferred_date req.preferred_time
      (find_best_service_center db) with
  | error e =>
    rw [hfps] at h
    cases h
  | ok p =>
    obtain ⟨ad, atime⟩ := p
    rw [hfps] at h
    simp only at h
    cases hcgu : create_or_get_user db req.user_name req.phone req.email with
    | error e =>
      rw [hcgu] at h
      cases h
    | ok q =>
      obtain ⟨user, db1⟩ := q
      rw [hcgu] at h
      simp only [Except.ok.injEq, Prod.mk.injEq] at h
      obtain ⟨hr, hdb⟩ := h
      subst hr
      subst hdb
      obtain ⟨hbk1, hvh1, humem, huph⟩ :=
        create_or_get_user_ok_spec db req.user_name req.phone req.email user db1 hcgu
      obtain ⟨hbk2, hus2, hvmem, hvuid, hvmk, hvmd⟩ :=
        create_or_get_vehicle_spec db1 user.id req.vehicle_make req.vehicle_model
          req.vehicle_year
      refine ⟨user, (create_or_get_vehicle db1 user.id req.vehicle_make
        req.vehicle_model req.vehicle_year).1,
        ⟨(create_or_get_vehicle db1 user.id req.vehicle_make req.vehicle_model
          req.vehicle_year).2.nextBookingId, user.id,
          (create_or_get_vehicle db1 user.id req.vehicle_make req.vehicle_model
            req.vehicle_year).1.id,
          find_best_service_center db, ad, atime, req.service_type, "Confirmed"⟩,
        ?_, ?_, ?_, huph, hvuid, hvmk, hvmd, rfl, rfl, rfl, rfl, rfl, rfl, rfl, rfl⟩
      · simpa [hus2] using humem
      · simpa using hvmem
      · simp [hbk2, hbk1]

/-- A failed `schedule_appointment` leaves the store exactly as it was:
both failure points (malformed date reaching `strptime`, duplicate
email on the user insert) precede any persisted write. -/
theorem schedule_error_spec (db : DB) (req : BookingCreate) (e : SchedErr)
    (dbe : DB) (h : schedule_appointment db req = Except.error (e, dbe)) :
    dbe = db := by
  simp only [schedule_appointment] at h
  cases hfps : find_preferred_slot db req.preferred_date req.preferred_time
      (find_best_service_center db) with
  | error e2 =>
    rw [hfps] at h
    simp only [Except.error.injEq, Prod.mk.injEq] at h
    exact h.2.symm
  | ok p =>
    obtain ⟨ad, atime⟩ := p
    rw [hfps] at h
    simp only at h
    cases hcgu : create_or_get_user db req.user_name req.phone req.email with
    | error q =>
      obtain ⟨err, dbq⟩ := q
      rw [hcgu] at h
      simp only [Except.error.injEq, Prod.mk.injEq] at h
      rw [← h.2]
      exact create_or_get_user_error_spec db req.user_name req.phone req.email
        err dbq hcgu
    | ok q =>
      obtain ⟨user, db1⟩ := q
      rw [hcgu] at h
      cases h

/-! ### Concrete fixtures used by witnesses and counterexamples -/

/-- A well-formed booking request for a fresh customer. -/
def reqStd : BookingCreate :=
  ⟨"Asha", "9999", "a@x", "Tata", "Nexon", 2023, "2025-06-10", "09:00",
    "General Service"⟩

/-- Response of `schedule_appointment initialDB reqStd`. -/
def respStd : ScheduleResponse :=
  ⟨1, "2025-06-10", "09:00", false, "No wait - You'll be first!", 1⟩

/-- Database state after `schedule_appointment initialDB reqStd`. -/
def dbStd : DB :=
  { initialDB with
    users := [⟨1, "Asha", "9999", "a@x"⟩]
    vehicles := [⟨1, 1, "Tata", "Nexon", 2023⟩]
    bookings := [⟨1, 1, 1, 1, "2025-06-10", "09:00", "General Service", "Confirmed"⟩]
    nextUserId := 2
    nextVehicleId := 2
    nextBookingId := 2 }

/-! ### C10: missing service centers fall back to center id 1 -/

/-- C10: when the store contains no service centers at all,
`find_best_service_center` returns the constant center id 1 instead of
raising an error, so scheduling proceeds against a center id for which
no ServiceCenter record exists. -/
theorem claim_C10_default_center (db : DB) (h : db.centers = []) :
    find_best_service_center db = 1 ∧
    (∀ center ∈ db.centers, center.id ≠ 1) ∧
    (∀ req r db', schedule_appointment db req = Except.ok (r, db') →
      r.service_center_id = 1) := by
  have hfb : find_best_service_center db = 1 := by
    simp [find_best_service_center, h]
  refine ⟨hfb, by simp [h], fun req r db' hok => ?_⟩
  obtain ⟨u, v, b, h1, h2, h3, h4, h5, h6, h7, h8, h9, h10, h11, h12, h13, h14,
    h15⟩ := schedule_ok_spec db req r db' hok
  exact h14.trans hfb

/-- A store with no service centers at all. -/
def emptyCentersDB : DB := { initialDB with centers := [] }

/-- Response of `schedule_appointment emptyCentersDB reqStd`. -/
def respC10 : ScheduleResponse :=
  ⟨1, "2025-06-10", "09:00", false, "No wait - You'll be first!", 1⟩

/-- Database state after `schedule_appointment emptyCentersDB reqStd`. -/
def dbC10 : DB :=
  { emptyCentersDB with
    users := [⟨1, "Asha", "9999", "a@x"⟩]
    vehicles := [⟨1, 1, "Tata", "Nexon", 2023⟩]
    bookings := [⟨1, 1, 1, 1, "2025-06-10", "09:00", "General Service", "Confirmed"⟩]
    nextUserId := 2
    nextVehicleId := 2
    nextBookingId := 2 }

/-- Witness for C10 at a concrete empty-centers store, including a
concrete scheduling run that proceeds against the phantom center 1. -/
theorem claim_C10_default_center_witness :
    find_best_service_center emptyCentersDB = 1 ∧
    respC10.service_center_id = 1 :=
  ⟨(claim_C10_default_center emptyCentersDB rfl).1,
   (claim_C10_default_center emptyCentersDB rfl).2.2 reqStd respC10 dbC10
     (by decide)⟩

/-! ### C2: atomicity of the booking orchestration -/

/-- C2: for every request to the scheduling operation, either the User,
the Vehicle, and the Booking are all persisted together, or, if any
step fails, none of the three is persisted (the store is exactly the
pre-request store). -/
theorem claim_C2_atomicity (db : DB) (req : BookingCreate) :
    (∀ e dbe, schedule_appointment db req = Except.error (e, dbe) → dbe = db) ∧
    (∀ r db', schedule_appointment db req = Except.ok (r, db') →
      ∃ u ∈ db'.users, ∃ v ∈ db'.vehicles, ∃ b ∈ db'.bookings,
        u.phone = req.phone ∧ v.user_id = u.id ∧ v.make = req.vehicle_make ∧
        v.model = req.vehicle_model ∧ b.user_id = u.id ∧ b.vehicle_id = v.id ∧
        b.status = "Confirmed" ∧ b.date = r.assigned_date ∧
        b.time = r.assigned_time) := by
  constructor
  · exact fun e dbe h => schedule_error_spec db req e dbe h
  · intro r db' hok
    obtain ⟨u, v, b, h1, h2, h3, h4, h5, h6, h7, h8, h9, h10, h11, h12, h13, h14,
      h15⟩ := schedule_ok_spec db req r db' hok
    refine ⟨u, h1, v, h2, b, ?_, h4, h5, h6, h7, h8, h9, h13, h10, h11⟩
    rw [h3]
    simp

/-- A store holding one user, to provoke the duplicate-email failure. -/
def dbDup : DB := { initialDB with users := [⟨1, "B", "0001", "e@x"⟩], nextUserId := 2 }

/-- A request with a fresh phone but an already-taken email. -/
def reqDup : BookingCreate :=
  ⟨"C", "0002", "e@x", "Tata", "Nexon", 2023, "2025-06-10", "09:00",
    "General Service"⟩

/-- Witness for C2: a failing run leaves the store untouched, and a
successful run persists user, vehicle and booking together. -/
theorem claim_C2_atomicity_witness :
    dbDup = dbDup ∧
    (∃ u ∈ dbStd.users, ∃ v ∈ dbStd.vehicles, ∃ b ∈ dbStd.bookings,
      u.phone = reqStd.phone ∧ v.user_id = u.id ∧ v.make = reqStd.vehicle_make ∧
      v.model = reqStd.vehicle_model ∧ b.user_id = u.id ∧ b.vehicle_id = v.id ∧
      b.status = "Confirmed" ∧ b.date = respStd.assigned_date ∧
      b.time = respStd.assigned_time) :=
  ⟨(claim_C2_atomicity dbDup reqDup).1 SchedErr.integrityError dbDup (by decide),
   (claim_C2_atomicity initialDB reqStd).2 respStd dbStd (by decide)⟩

/-! ### C1: the capacity invariant -/

/-- Six repetitions of the unchecked `POST /bookings` operation on the
same preferred slot. -/
def dbOver : DB :=
  runCreate (runCreate (runCreate (runCreate (runCreate
    (runCreate initialDB reqStd) reqStd) reqStd) reqStd) reqStd) reqStd

/-- Counterexample to C1 as stated: a state reachable through six plain
booking operations holds 6 non-Cancelled bookings in one
(date, time, service_center) triple, because `create_booking` performs
no availability check at all. -/
theorem claim_C1_counterexample :
    reachable dbOver ∧ countActive dbOver "2025-06-10" "09:00" 1 = 6 ∧
    ¬ capacityInvariant dbOver := by
  refine ⟨?_, by decide, fun hinv => ?_⟩
  · show Relation.ReflTransGen Step initialDB dbOver
    exact Relation.ReflTransGen.tail (Relation.ReflTransGen.tail
      (Relation.ReflTransGen.tail (Relation.ReflTransGen.tail
        (Relation.ReflTransGen.tail (Relation.ReflTransGen.tail
          Relation.ReflTransGen.refl
          (Step.createB reqStd initialDB)) (Step.createB reqStd _))
        (Step.createB reqStd _)) (Step.createB reqStd _))
      (Step.createB reqStd _)) (Step.createB reqStd _)
  · have := hinv "2025-06-10" "09:00" 1
    revert this
    decide

/-- C1 amended: the scheduling endpoint preserves the capacity
invariant whenever the slot it assigns was still available in the
pre-request store (tiers 1-4 of the engine); the invariant is not
preserved by the unchecked `create_booking` operation, nor by the
tier-5 exhausted fallback, whose assigned slot fails the availability
check. -/
theorem claim_C1_amended_preservation (db : DB) (req : BookingCreate)
    (r : ScheduleResponse) (db' : DB)
    (hinv : capacityInvariant db)
    (hok : schedule_appointment db req = Except.ok (r, db'))
    (hav : check_slot_availability db r.assigned_date r.assigned_time
      r.service_center_id = true) :
    capacityInvariant db' := by
  obtain ⟨u, v, b, h1, h2, h3, h4, h5, h6, h7, h8, h9, h10, h11, h12, h13, h14,
    h15⟩ := schedule_ok_spec db req r db' hok
  intro d t c
  show countActive db' d t c ≤ 5
  have hckd : countActive db r.assigned_date r.assigned_time
      r.service_center_id < 5 :=
    (check_slot_availability_iff db r.assigned_date r.assigned_time
      r.service_center_id).mp hav
  by_cases hm : (b.date == d && b.time == t && b.service_center_id == c &&
      b.status != "Cancelled") = true
  · have heq : countActive db' d t c = countActive db d t c + 1 := by
      simp [countActive, h3, List.countP_append, List.countP_cons, hm]
    rw [heq]
    simp only [Bool.and_eq_true, beq_iff_eq, bne_iff_ne] at hm
    obtain ⟨⟨⟨hbd, hbt⟩, hbc⟩, hbs⟩ := hm
    have hd : d = r.assigned_date := hbd ▸ h10
    have ht2 : t = r.assigned_time := hbt ▸ h11
    have hc2 : c = r.service_center_id := hbc ▸ (h12.trans h14.symm)
    rw [hd, ht2, hc2]
    omega
  · have heq : countActive db' d t c = countActive db d t c := by
      simp [countActive, h3, List.countP_append, List.countP_cons, hm]
    rw [heq]
    exact hinv d t c

/-- The freshly seeded store satisfies the capacity invariant. -/
theorem initialDB_capacity : capacityInvariant initialDB := by
  intro d t c
  show countActive initialDB d t c ≤ 5
  simp [countActive, initialDB]

/-- Witness for the amended C1: one checked scheduling run from the
seeded store keeps the invariant. -/
theorem claim_C1_amended_preservation_witness : capacityInvariant dbStd :=
  claim_C1_amended_preservation initialDB reqStd respStd dbStd
    initialDB_capacity (by decide) (by decide)

/-! ### C3: validation of malformed date/time -/

/-- A request whose preferred_date is not of the form YYYY-MM-DD. -/
def reqBad : BookingCreate :=
  ⟨"Asha", "9999", "a@x", "Tata", "Nexon", 2023, "bad-date", "09:00",
    "General Service"⟩

/-- Response of `schedule_appointment initialDB reqBad`. -/
def respBad : ScheduleResponse :=
  ⟨1, "bad-date", "09:00", false, "No wait - You'll be first!", 1⟩

/-- Database state after `schedule_appointment initialDB reqBad`. -/
def dbBad : DB :=
  { initialDB with
    users := [⟨1, "Asha", "9999", "a@x"⟩]
    vehicles := [⟨1, 1, "Tata", "Nexon", 2023⟩]
    bookings := [⟨1, 1, 1, 1, "bad-date", "09:00", "General Service", "Confirmed"⟩]
    nextUserId := 2
    nextVehicleId := 2
    nextBookingId := 2 }

/-- Counterexample to C3 as stated: a request with a malformed
preferred_date ("bad-date" is not YYYY-MM-DD: strptime rejects it)
succeeds against a fresh store — no client error is reported — and a
Booking carrying the malformed date string is persisted. -/
theorem claim_C3_counterexample :
    parseDate "bad-date" = none ∧
    schedule_appointment initialDB reqBad = Except.ok (respBad, dbBad) ∧
    ∃ b ∈ dbBad.bookings, b.date = "bad-date" := by decide

/-- C3 amended: a malformed preferred_date is reported as a client
error with nothing persisted exactly when the engine exhausts tiers 1-2
(every slot on the malformed date string already full at the selected
center) and reaches `strptime`; otherwise the request succeeds and the
malformed string is persisted (see the counterexample). The malformed
preferred_time alone never aborts the operation. -/
theorem claim_C3_amended_validation (db : DB) (req : BookingCreate)
    (hbaddate : parseDate req.preferred_date = none)
    (hfull : ∀ s ∈ AVAILABLE_SLOTS,
      5 ≤ countActive db req.preferred_date s (find_best_service_center db)) :
    schedule_appointment db req = Except.error (SchedErr.valueError, db) := by
  have hnb : ∀ s ∈ AVAILABLE_SLOTS,
      check_slot_availability db req.preferred_date s
        (find_best_service_center db) = false := by
    intro s hs
    have h5 := hfull s hs
    simp only [check_slot_availability, SLOTS_PER_TIMEFRAME, decide_eq_false_iff_not,
      not_lt]
    exact h5
  have hcond : ¬(req.preferred_time ∈ AVAILABLE_SLOTS ∧
      check_slot_availability db req.preferred_date req.preferred_time
        (find_best_service_center db) = true) := by
    rintro ⟨hmem, hch⟩
    rw [hnb _ hmem] at hch
    cases hch
  have hfind : (sortByKey
      (fun x => dictGet (get_slot_occupancy db req.preferred_date
        (find_best_service_center db)) x) AVAILABLE_SLOTS).find?
      (fun slot => check_slot_availability db req.preferred_date slot
        (find_best_service_center db)) = none := by
    apply List.find?_eq_none.mpr
    intro x hx
    have hxs : x ∈ AVAILABLE_SLOTS := (mem_sortByKey _ _ _).mp hx
    simp [hnb x hxs]
  have hfps : find_preferred_slot db req.preferred_date req.preferred_time
      (find_best_service_center db) = Except.error SchedErr.valueError := by
    simp only [find_preferred_slot, if_neg hcond]
    rw [hfind, hbaddate]
  simp only [schedule_appointment]
  rw [hfps]

/-- A store whose 8 slots on the string "bad-date" are all full at
center 1. -/
def dbFullBad : DB :=
  { initialDB with
    bookings := AVAILABLE_SLOTS.flatMap fun s =>
      (List.range 5).map fun _ =>
        ⟨0, 1, 1, 1, "bad-date", s, "General Service", "Confirmed"⟩ }

/-- Witness for the amended C3: with the malformed date's slots full,
the request aborts with a client error and an unchanged store. -/
theorem claim_C3_amended_validation_witness :
    schedule_appointment dbFullBad reqBad =
      Except.error (SchedErr.valueError, dbFullBad) :=
  claim_C3_amended_validation dbFullBad reqBad (by decide) (by decide)

/-! ### C5: same-day relaxation tier -/

/-- C5: when the exact preferred slot is not granted (unavailable or an
invalid label) but some slot on the preferred date is available,
`find_preferred_slot` stays on the preferred date and picks an
available slot of minimal non-cancelled count, ties broken by the
canonical slot-label order; in particular the returned slot is never a
full one, so a full preferred slot is never returned. -/
theorem claim_C5_same_day_relaxation (db : DB) (d t : String) (c : Nat)
    (h1 : ¬(t ∈ AVAILABLE_SLOTS ∧ countActive db d t c < 5))
    (h2 : ∃ s ∈ AVAILABLE_SLOTS, countActive db d s c < 5) :
    ∃ s, find_preferred_slot db d t c = Except.ok (d, s) ∧
      s ∈ AVAILABLE_SLOTS ∧
      countActive db d s c < 5 ∧
      (∀ s' ∈ AVAILABLE_SLOTS, countActive db d s c ≤ countActive db d s' c) ∧
      (∀ s' ∈ AVAILABLE_SLOTS, countActive db d s' c = countActive db d s c →
        AVAILABLE_SLOTS.indexOf s ≤ AVAILABLE_SLOTS.indexOf s') ∧
      (5 ≤ countActive db d t c → s ≠ t) := by
  have hkd_eq : ∀ x ∈ AVAILABLE_SLOTS,
      dictGet (get_slot_occupancy db d c) x = countActive db d x c := by
    intro x hx
    simp [get_slot_occupancy, dictGet_map_eq, hx]
  cases hfm : firstMin (fun x => dictGet (get_slot_occupancy db d c) x)
      AVAILABLE_SLOTS with
  | none =>
    rw [firstMin_eq_none] at hfm
    cases hfm
  | some m =>
    have hmem : m ∈ AVAILABLE_SLOTS := firstMin_mem _ _ _ hfm
    have hmin0 := firstMin_min (fun x => dictGet (get_slot_occupancy db d c) x)
      AVAILABLE_SLOTS m hfm
    have hmin : ∀ y ∈ AVAILABLE_SLOTS, countActive db d m c ≤ countActive db d y c := by
      intro y hy
      have hle : dictGet (get_slot_occupancy db d c) m ≤
          dictGet (get_slot_occupancy db d c) y := hmin0 y hy
      rwa [hkd_eq m hmem, hkd_eq y hy] at hle
    obtain ⟨s0, hs0mem, hs0⟩ := h2
    have hmlt : countActive db d m c < 5 :=
      Nat.lt_of_le_of_lt (hmin s0 hs0mem) hs0
    have hcond : ¬(t ∈ AVAILABLE_SLOTS ∧
        check_slot_availability db d t c = true) := by
      rintro ⟨ht, hch⟩
      exact h1 ⟨ht, (check_slot_availability_iff db d t c).mp hch⟩
    have hhead : (sortByKey (fun x => dictGet (get_slot_occupancy db d c) x)
        AVAILABLE_SLOTS).head? = some m := by
      rw [sortByKey_head?]
      exact hfm
    have hfind : (sortByKey (fun x => dictGet (get_slot_occupancy db d c) x)
        AVAILABLE_SLOTS).find?
        (fun slot => check_slot_availability db d slot c) = some m := by
      cases hsrt : sortByKey (fun x => dictGet (get_slot_occupancy db d c) x)
          AVAILABLE_SLOTS with
      | nil => rw [hsrt] at hhead; cases hhead
      | cons z zs =>
        rw [hsrt] at hhead
        simp only [List.head?_cons, Option.some.injEq] at hhead
        subst hhead
        exact List.find?_cons_of_pos _
          ((check_slot_availability_iff db d z c).mpr hmlt)
    refine ⟨m, ?_, hmem, hmlt, hmin, ?_, ?_⟩
    · simp only [find_preferred_slot, if_neg hcond]
      rw [hfind]
    · intro s' hs' hcnt
      refine firstMin_first (fun x => dictGet (get_slot_occupancy db d c) x)
        AVAILABLE_SLOTS m hfm s' hs' ?_
      show dictGet (get_slot_occupancy db d c) s' =
        dictGet (get_slot_occupancy db d c) m
      rw [hkd_eq m hmem, hkd_eq s' hs']
      exact hcnt
    · intro hfull heq
      subst heq
      omega

/-- Five Confirmed bookings at (2025-06-10, 10:00, center 1). -/
def dbFive : DB :=
  { initialDB with
    bookings := (List.range 5).map fun i =>
      ⟨i + 1, 1, 1, 1, "2025-06-10", "10:00", "General Service", "Confirmed"⟩
    nextBookingId := 6 }

/-- Witness for C5: with the preferred slot (10:00) at capacity, the
engine stays on 2025-06-10 and returns the least-loaded earliest slot. -/
theorem claim_C5_same_day_relaxation_witness :
    ∃ s, find_preferred_slot dbFive "2025-06-10" "10:00" 1 =
        Except.ok ("2025-06-10", s) ∧
      s ∈ AVAILABLE_SLOTS ∧
      countActive dbFive "2025-06-10" s 1 < 5 ∧
      (∀ s' ∈ AVAILABLE_SLOTS, countActive dbFive "2025-06-10" s 1 ≤
        countActive dbFive "2025-06-10" s' 1) ∧
      (∀ s' ∈ AVAILABLE_SLOTS, countActive dbFive "2025-06-10" s' 1 =
          countActive dbFive "2025-06-10" s 1 →
        AVAILABLE_SLOTS.indexOf s ≤ AVAILABLE_SLOTS.indexOf s') ∧
      (5 ≤ countActive dbFive "2025-06-10" "10:00" 1 → s ≠ "10:00") :=
  claim_C5_same_day_relaxation dbFive "2025-06-10" "10:00" 1 (by decide)
    (by decide)

/-! ### C6: exhausted-fallback tier -/

/-- When every listed day offset stays inside the calendar range and
every slot on it is full, the day search of step 4 finds nothing. -/
theorem searchDays_eq_none (db : DB) (dt : Date) (c : Nat) (l : List Nat)
    (h : ∀ i ∈ l, (addDays dt i).year ≤ 9999 ∧ ∀ s ∈ AVAILABLE_SLOTS,
      check_slot_availability db (formatDate (addDays dt i)) s c = false) :
    searchDays db dt c l = Except.ok none := by
  induction l with
  | nil => rfl
  | cons i rest ih =>
    obtain ⟨hbound, hfull⟩ := h i (List.mem_cons_self i rest)
    have hadd : addDaysBounded dt i = some (addDays dt i) := by
      simp [addDaysBounded, hbound]
    have hfind : AVAILABLE_SLOTS.find? (fun slot =>
        check_slot_availability db (formatDate (addDays dt i)) slot c) = none := by
      apply List.find?_eq_none.mpr
      intro x hx
      simp [hfull x hx]
    simp only [searchDays, hadd]
    rw [hfind]
    exact ih fun j hj => h j (List.mem_cons_of_mem i hj)

/-- C6 amended: if no slot among the 8 labels is available on the
preferred date (as written in the request) nor on any of the six
following calendar days, and those six day offsets stay inside
datetime's calendar range (year ≤ 9999), `find_preferred_slot` returns
(preferred_date + 1 day, "09:00") unconditionally — even though that
slot is itself full. Within 6 days of 9999-12-31 the engine instead
raises OverflowError (see the counterexample). -/
theorem claim_C6_exhausted_fallback (db : DB) (d t : String) (c : Nat) (dt : Date)
    (hparse : parseDate d = some dt)
    (hbound : ∀ i ∈ [1, 2, 3, 4, 5, 6], (addDays dt i).year ≤ 9999)
    (h0 : ∀ s ∈ AVAILABLE_SLOTS, 5 ≤ countActive db d s c)
    (h16 : ∀ i ∈ [1, 2, 3, 4, 5, 6], ∀ s ∈ AVAILABLE_SLOTS,
      5 ≤ countActive db (formatDate (addDays dt i)) s c) :
    find_preferred_slot db d t c =
      Except.ok (formatDate (addDays dt 1), "09:00") := by
  have hnb : ∀ s ∈ AVAILABLE_SLOTS, check_slot_availability db d s c = false := by
    intro s hs
    have h5 := h0 s hs
    simp only [check_slot_availability, SLOTS_PER_TIMEFRAME,
      decide_eq_false_iff_not, not_lt]
    exact h5
  have hnbD : ∀ i ∈ [1, 2, 3, 4, 5, 6], ∀ s ∈ AVAILABLE_SLOTS,
      check_slot_availability db (formatDate (addDays dt i)) s c = false := by
    intro i hi s hs
    have h5 := h16 i hi s hs
    simp only [check_slot_availability, SLOTS_PER_TIMEFRAME,
      decide_eq_false_iff_not, not_lt]
    exact h5
  have hcond : ¬(t ∈ AVAILABLE_SLOTS ∧ check_slot_availability db d t c = true) := by
    rintro ⟨hmem, hch⟩
    rw [hnb t hmem] at hch
    cases hch
  have hfind2 : (sortByKey (fun x => dictGet (get_slot_occupancy db d c) x)
      AVAILABLE_SLOTS).find?
      (fun slot => check_slot_availability db d slot c) = none := by
    apply List.find?_eq_none.mpr
    intro x hx
    have hxs : x ∈ AVAILABLE_SLOTS := (mem_sortByKey _ _ _).mp hx
    simp [hnb x hxs]
  have hfind3 : AVAILABLE_SLOTS.find? (fun slot =>
      check_slot_availability db (formatDate (addDays dt 1)) slot c) = none := by
    apply List.find?_eq_none.mpr
    intro x hx
    simp [hnbD 1 (by simp) x hx]
  have hadd1 : addDaysBounded dt 1 = some (addDays dt 1) := by
    simp [addDaysBounded, hbound 1 (by simp)]
  have hsearch : searchDays db dt c [2, 3, 4, 5, 6] = Except.ok none :=
    searchDays_eq_none db dt c [2, 3, 4, 5, 6]
      fun j hj => ⟨hbound j (by revert hj; simp; omega),
        fun s hs => hnbD j (by revert hj; simp; omega) s hs⟩
  simp only [find_preferred_slot, if_neg hcond]
  rw [hfind2]
  simp only [hparse]
  simp only [hadd1]
  rw [hfind3, hsearch]
  rfl

/-- The day strings produced by offsets 0..6 from 9999-12-31 (the
out-of-range ones read "10000-01-0k"; the date column is plain text,
so `create_booking` can store such strings). -/
def overflowDates : List String :=
  (List.range 7).map fun i => formatDate (addDays ⟨9999, 12, 31⟩ i)

/-- A store in which every slot on each of those seven day strings is
full at center 1. -/
def dbMaxFull : DB :=
  { initialDB with
    bookings := overflowDates.flatMap fun ds => AVAILABLE_SLOTS.flatMap fun s =>
      (List.range 5).map fun _ =>
        ⟨0, 1, 1, 1, ds, s, "General Service", "Confirmed"⟩ }

set_option maxRecDepth 16000 in
/-- Counterexample to C6 as stated: for preferred_date 9999-12-31 with
no slot available on it nor on the six following day strings, the
engine does not return (preferred_date + 1 day, "09:00") — the
`+ timedelta(days=1)` at tier 3 overflows past `datetime.MAXYEAR` and
the operation aborts with an error instead. -/
theorem claim_C6_counterexample :
    (∀ i ∈ [0, 1, 2, 3, 4, 5, 6], ∀ s ∈ AVAILABLE_SLOTS,
      check_slot_availability dbMaxFull
        (formatDate (addDays ⟨9999, 12, 31⟩ i)) s 1 = false) ∧
    formatDate (addDays ⟨9999, 12, 31⟩ 0) = "9999-12-31" ∧
    find_preferred_slot dbMaxFull "9999-12-31" "09:00" 1 =
      Except.error SchedErr.overflowError := by
  decide

/-- The seven padded day strings 2025-06-10 .. 2025-06-16. -/
def weekDates : List String :=
  (List.range 7).map fun i => formatDate (addDays ⟨2025, 6, 10⟩ i)

/-- A store in which center 1 is fully booked (40/40) on each of the
seven days 2025-06-10 .. 2025-06-16. -/
def dbFullWeek : DB :=
  { initialDB with
    bookings := weekDates.flatMap fun ds => AVAILABLE_SLOTS.flatMap fun s =>
      (List.range 5).map fun _ =>
        ⟨0, 1, 1, 1, ds, s, "General Service", "Confirmed"⟩ }

set_option maxRecDepth 16000 in
/-- Witness for C6, reproducing the documented scenario: a week fully
booked from 2025-06-10 makes the engine return (2025-06-11, 09:00),
itself full. -/
theorem claim_C6_exhausted_fallback_witness :
    find_preferred_slot dbFullWeek "2025-06-10" "09:00" 1 =
      Except.ok (formatDate (addDays ⟨2025, 6, 10⟩ 1), "09:00") :=
  claim_C6_exhausted_fallback dbFullWeek "2025-06-10" "09:00" 1 ⟨2025, 6, 10⟩
    (by decide) (by decide) (by decide) (by decide)

/-! ### C7: day-optimizer percentage -/

/-- The optimizer's percentage is the booked count over the constant
capacity 40, times 100, rounded to two decimals. -/
theorem optimize_percentage_eq (db : DB) (date : String) (c : Nat) :
    (optimize_slots_for_day db date c).occupancy_percentage =
      round2 ((((optimize_slots_for_day db date c).total_booked : ℚ) / 40) * 100) := by
  simp only [optimize_slots_for_day]
  rw [if_pos (by decide : AVAILABLE_SLOTS.length * SLOTS_PER_TIMEFRAME > 0)]
  have hcap : ((AVAILABLE_SLOTS.length * SLOTS_PER_TIMEFRAME : ℕ) : ℚ) = 40 := by
    norm_num [AVAILABLE_SLOTS, SLOTS_PER_TIMEFRAME]
  rw [hcap]

/-- On the values this program produces, `round(booked/40*100, 2)` is
exactly `booked * 250 / 100` (the scaled value is an integer, so the
rounding — and the float pipeline — are exact). -/
theorem round2_eval40 (b : Nat) :
    round2 (((b : ℚ) / 40) * 100) = ((b : ℚ) * 250) / 100 := by
  unfold round2
  have hq : (((b : ℚ) / 40) * 100) * 100 = ((b * 250 : ℕ) : ℚ) := by
    push_cast
    ring
  rw [hq, round_natCast]
  push_cast
  ring

/-- When every slot respects the capacity, at most 40 bookings are
counted for the day. -/
theorem total_booked_le (db : DB) (date : String) (c : Nat)
    (h : ∀ s ∈ AVAILABLE_SLOTS, countActive db date s c ≤ 5) :
    (optimize_slots_for_day db date c).total_booked ≤ 40 := by
  show ((get_slot_occupancy db date c).map Prod.snd).sum ≤ 40
  have hb : ∀ x ∈ (get_slot_occupancy db date c).map Prod.snd, x ≤ 5 := by
    intro x hx
    simp only [get_slot_occupancy, List.map_map, List.mem_map,
      Function.comp] at hx
    obtain ⟨s, hs, hxs⟩ := hx
    rw [← hxs]
    exact h s hs
  have hsum := List.sum_le_card_nsmul ((get_slot_occupancy db date c).map Prod.snd) 5 hb
  have hlen : ((get_slot_occupancy db date c).map Prod.snd).length = 8 := by
    simp [get_slot_occupancy, AVAILABLE_SLOTS]
  rw [hlen] at hsum
  simpa using hsum

/-- C7 amended: `occupancy_percentage` always equals
total_booked / 40 × 100 rounded to 2 decimals and is always ≥ 0, and it
is ≤ 100 whenever each slot's count respects the capacity 5 — but not
on every database state (see the counterexample). -/
theorem claim_C7_percentage (db : DB) (date : String) (c : Nat) :
    (optimize_slots_for_day db date c).occupancy_percentage =
      round2 ((((optimize_slots_for_day db date c).total_booked : ℚ) / 40) * 100) ∧
    0 ≤ (optimize_slots_for_day db date c).occupancy_percentage ∧
    ((∀ s ∈ AVAILABLE_SLOTS, countActive db date s c ≤ 5) →
      (optimize_slots_for_day db date c).occupancy_percentage ≤ 100) := by
  refine ⟨optimize_percentage_eq db date c, ?_, fun h => ?_⟩
  · rw [optimize_percentage_eq, round2_eval40]
    positivity
  · rw [optimize_percentage_eq, round2_eval40]
    have hb := total_booked_le db date c h
    rw [div_le_iff₀ (by norm_num)]
    have hbq : ((optimize_slots_for_day db date c).total_booked : ℚ) ≤ 40 := by
      exact_mod_cast hb
    nlinarith

/-- 41 Confirmed bookings piled on one slot (as the unchecked
`create_booking` permits). -/
def dbOver41 : DB :=
  { initialDB with
    bookings := (List.range 41).map fun i =>
      ⟨i + 1, 1, 1, 1, "2025-06-10", "09:00", "General Service", "Confirmed"⟩
    nextBookingId := 42 }

/-- Counterexample to C7 as stated: with 41 bookings on one day the
percentage is 102.5, outside [0, 100]. -/
theorem claim_C7_counterexample :
    100 < (optimize_slots_for_day dbOver41 "2025-06-10" 1).occupancy_percentage := by
  have hb : (optimize_slots_for_day dbOver41 "2025-06-10" 1).total_booked = 41 := by
    decide
  rw [optimize_percentage_eq, hb, round2_eval40]
  norm_num

/-- Witness for the amended C7 on a concrete store. -/
theorem claim_C7_percentage_witness :
    (optimize_slots_for_day initialDB "2025-06-10" 1).occupancy_percentage =
      round2 ((((optimize_slots_for_day initialDB "2025-06-10" 1).total_booked : ℚ)
        / 40) * 100) ∧
    0 ≤ (optimize_slots_for_day initialDB "2025-06-10" 1).occupancy_percentage ∧
    (optimize_slots_for_day initialDB "2025-06-10" 1).occupancy_percentage ≤ 100 :=
  ⟨(claim_C7_percentage initialDB "2025-06-10" 1).1,
   (claim_C7_percentage initialDB "2025-06-10" 1).2.1,
   (claim_C7_percentage initialDB "2025-06-10" 1).2.2 (by decide)⟩

/-! ### C8: cancellation frees the slot -/

/-- Cancelling a booking whose id is unique removes exactly one match
from the active count of its (date, time, center) triple. -/
theorem countP_cancelFirst (d t : String) (c : Nat) :
    ∀ (l : List Booking) (b : Booking),
    (l.map Booking.id).Nodup → b ∈ l →
    (b.date == d && b.time == t && b.service_center_id == c &&
      b.status != "Cancelled") = true →
    (cancelFirst l b.id).countP (fun x => x.date == d && x.time == t &&
      x.service_center_id == c && x.status != "Cancelled") + 1 =
    l.countP (fun x => x.date == d && x.time == t &&
      x.service_center_id == c && x.status != "Cancelled") := by
  intro l
  induction l with
  | nil => intro b _ hb; cases hb
  | cons x xs ih =>
    intro b hnd hb hmatch
    have hnd' : (xs.map Booking.id).Nodup := (List.nodup_cons.mp hnd).2
    by_cases hid : (x.id == b.id) = true
    · have hxb : x = b := by
        rcases List.mem_cons.mp hb with h | h
        · exact h.symm
        · exfalso
          have hx_not : x.id ∉ xs.map Booking.id := (List.nodup_cons.mp hnd).1
          have : b.id ∈ xs.map Booking.id := List.mem_map_of_mem Booking.id h
          rw [← beq_iff_eq.mp hid] at this
          exact hx_not this
      subst hxb
      simp only [cancelFirst, beq_self_eq_true, if_true]
      rw [List.countP_cons, List.countP_cons]
      have hcanc : (({ x with status := "Cancelled" } : Booking).date == d &&
          ({ x with status := "Cancelled" } : Booking).time == t &&
          ({ x with status := "Cancelled" } : Booking).service_center_id == c &&
          ({ x with status := "Cancelled" } : Booking).status != "Cancelled") = false := by
        simp
      rw [hcanc, hmatch]
      simp
    · have hbxs : b ∈ xs := by
        rcases List.mem_cons.mp hb with h | h
        · exfalso
          subst h
          exact hid (beq_self_eq_true b.id)
        · exact h
      have hne : (x.id == b.id) = false := by
        simpa using hid
      simp only [cancelFirst, hne, if_false, Bool.false_eq_true]
      rw [List.countP_cons, List.countP_cons]
      have := ih b hnd' hbxs hmatch
      omega

/-- C8: if a (date, time, center) triple holds exactly 5 non-cancelled
bookings — so `check_slot_availability` returns false — and
`cancel_booking` is applied to one of those bookings, a subsequent
`check_slot_availability` for the same triple returns true. -/
theorem claim_C8_cancellation_frees_slot (db : DB) (d t : String) (c : Nat)
    (b : Booking)
    (hnd : (db.bookings.map Booking.id).Nodup)
    (hb : b ∈ db.bookings)
    (hbd : b.date = d) (hbt : b.time = t) (hbc : b.service_center_id = c)
    (hbs : b.status ≠ "Cancelled")
    (hcount : countActive db d t c = 5) :
    check_slot_availability db d t c = false ∧
    check_slot_availability (cancel_booking db b.id) d t c = true := by
  have hmatch : (b.date == d && b.time == t && b.service_center_id == c &&
      b.status != "Cancelled") = true := by
    simp [hbd, hbt, hbc, hbs]
  have hdec := countP_cancelFirst d t c db.bookings b hnd hb hmatch
  constructor
  · simp only [check_slot_availability, SLOTS_PER_TIMEFRAME,
      decide_eq_false_iff_not, not_lt, hcount]
    exact Nat.le_refl 5
  · have hcnt' : countActive (cancel_booking db b.id) d t c = 4 := by
      have hc : countActive (cancel_booking db b.id) d t c =
          (cancelFirst db.bookings b.id).countP (fun x => x.date == d &&
            x.time == t && x.service_center_id == c &&
            x.status != "Cancelled") := rfl
      rw [hc]
      have hcnt0 : countActive db d t c = db.bookings.countP (fun x =>
          x.date == d && x.time == t && x.service_center_id == c &&
          x.status != "Cancelled") := rfl
      rw [hcnt0] at hcount
      omega
    simp [check_slot_availability, SLOTS_PER_TIMEFRAME, hcnt']

/-- Witness for C8 on a concrete store at capacity: cancelling booking
3 turns the slot available again. -/
theorem claim_C8_cancellation_frees_slot_witness :
    check_slot_availability dbFive "2025-06-10" "10:00" 1 = false ∧
    check_slot_availability (cancel_booking dbFive 3) "2025-06-10" "10:00" 1 = true :=
  claim_C8_cancellation_frees_slot dbFive "2025-06-10" "10:00" 1
    ⟨3, 1, 1, 1, "2025-06-10", "10:00", "General Service", "Confirmed"⟩
    (by decide) (by decide) rfl rfl rfl (by decide) (by decide)
